import Mathlib

/-!
Verification of the watchlist-match alert dispatch pipeline of the
ApnaManager backend.

The development shallowly embeds the relevant source code:

* `src/src/controllers/guest.controller.js`
  - `checkWatchlistAndNotify` (the dispatch orchestrator),
  - `registerGuest` (trigger), `resolveAlert`, `createAlert`,
  - `calculateAge` (age classification helper);
* `src/src/config/socket.js`
  - `getIO` (lazily-checked broadcaster handle),
  - the alternate orchestrator `checkWatchlistAndNotifyAsync`
    appended to that file (batch `insertMany`, admin fan-out);
* the Mongoose schemas: `Alert` (status / creatorModel enums),
  `Watchlist` (value / addedByModel), `Notification`
  (recipientModel enum, optional recipientStation),
  `PoliceStation`, `Police`, `RegionalAdmin`.

Mongoose documents become Lean structures; the MongoDB collections
become lists inside a `DB` record; enum validation performed by
Mongoose on insert becomes an explicit membership check that makes the
insert fail (`Option`/`Except`); JavaScript exceptions caught by the
orchestrator's `try { ... } catch` become an `Except DispState DispState`
whose `error` branch carries the persisted state at the moment of the
throw.  Fallible collaborators (store unreachable, socket not
initialized, transport throwing) are driven by an explicit
`FailureProfile` record of booleans.
-/

namespace ApnaManager

/-- A watchlist entry (`Watchlist.model.js`): a flagged identity value
with reason and authoring identity.  `wtype` embeds the schema field
`type` (enum `ID_Number` / `Phone_Number`); `addedByModel` is the
dynamic-reference tag (enum `Police` / `RegionalAdmin`). -/
structure WatchlistEntry where
  value : String
  wtype : String
  reason : String
  addedBy : Nat
  addedByModel : String
deriving DecidableEq, Repr

/-- An alert document (`Alert.model.js`, `src/unnamed/part_000`).
`status` has schema enum `['Open', 'Resolved']` with default `Open`;
`creatorModel` has schema enum `['Police', 'Regional Admin', 'System']`. -/
structure Alert where
  id : Nat
  guest : Nat
  reason : String
  status : String
  createdBy : Nat
  creatorModel : String
deriving DecidableEq, Repr

/-- A police station (`PoliceStation` model): jurisdiction is the
`pincodes` array. -/
structure Station where
  id : Nat
  name : String
  city : String
  pincodes : List String
deriving DecidableEq, Repr

/-- A police officer (`Police` model), keyed to a station by the
`policeStation` foreign key. -/
structure Officer where
  id : Nat
  policeStation : Nat
deriving DecidableEq, Repr

/-- A regional administrator (`RegionalAdmin` model) with the
active-status flag used by the async dispatch's admin fetch. -/
structure AdminUser where
  id : Nat
  status : String
deriving DecidableEq, Repr

/-- A notification document (`Notification.model.js`):
`recipientStation` is optional (absent for admin recipients),
`recipientModel` has schema enum `['Police', 'RegionalAdmin', 'Hotel']`. -/
structure NotificationDoc where
  recipientStation : Option Nat
  recipientUser : Nat
  recipientModel : String
  message : String
  isRead : Bool
deriving DecidableEq, Repr

/-- The guest snapshot fields the dispatch reads: `guest._id`,
`guest.idNumber`, `guest.primaryGuest.name`, `guest.primaryGuest.phone`. -/
structure GuestDoc where
  id : Nat
  idNumber : String
  name : String
  phone : String
deriving DecidableEq, Repr

/-- The hotel snapshot fields the dispatch reads: `hotel.pinCode`
(`none` models an absent field; `some ""` an empty string — both are
falsy in the JS guard) and `hotel.hotelName`. -/
structure HotelDoc where
  pinCode : Option String
  hotelName : String
deriving DecidableEq, Repr

/-- The persistent store: one list per MongoDB collection touched by
the pipeline. -/
structure DB where
  watchlist : List WatchlistEntry
  stations : List Station
  police : List Officer
  admins : List AdminUser
  alerts : List Alert
  notifications : List NotificationDoc
deriving DecidableEq, Repr

/-- A socket.io room emission: `io.to(room).emit(eventName, payload)`.
`payloadType` records the `type` field of the payload
(`WATCHLIST_HIT` / `WATCHLIST_HIT_ADMIN`). -/
structure Emit where
  room : String
  eventName : String
  payloadType : String
deriving DecidableEq, Repr

/-- One underlying store write operation, recorded to distinguish a
single batch `insertMany` from a sequence of per-document `create`
calls. -/
inductive StoreOp where
  | alertInsert : Alert → StoreOp
  | notificationInsert : List NotificationDoc → StoreOp
deriving DecidableEq, Repr

/-- Injected collaborator failures: each flag makes the corresponding
store call reject (throw).  `socketInitialized = false` makes `getIO`
throw (`Socket.io not initialized!`); `emitThrows` makes the transport
throw inside the emit block. -/
structure FailureProfile where
  watchlistFindFails : Bool
  alertInsertFails : Bool
  stationFindFails : Bool
  officersFindFails : Bool
  adminsFindFails : Bool
  notificationInsertFails : Bool
  socketInitialized : Bool
  emitThrows : Bool
deriving DecidableEq, Repr

/-- The profile in which every collaborator behaves. -/
def noFailures : FailureProfile :=
  ⟨false, false, false, false, false, false, true, false⟩

/-- Observable state of one dispatch run: the store, the socket
emissions performed, and the log of underlying write operations. -/
structure DispState where
  db : DB
  emits : List Emit
  ops : List StoreOp
deriving DecidableEq, Repr

/-- Schema enum of `Alert.creatorModel`: note `'Regional Admin'` is
spelled with a space in the Alert schema. -/
def alertCreatorModels : List String := ["Police", "Regional Admin", "System"]

/-- Schema enum of `Alert.status`. -/
def alertStatuses : List String := ["Open", "Resolved"]

/-- Schema enum of `Notification.recipientModel`. -/
def notificationRecipientModels : List String := ["Police", "RegionalAdmin", "Hotel"]

/-- Schema enum of `Watchlist.addedByModel`: note `'RegionalAdmin'`
is spelled without a space here. -/
def watchlistAddedByModels : List String := ["Police", "RegionalAdmin"]

/-- `Watchlist.findOne({ $or: [{ value: idNumber }, { value: phone }] })`:
first entry whose stored value equals either candidate. -/
def watchlistFindOne (wl : List WatchlistEntry) (idNumber phone : String) :
    Option WatchlistEntry :=
  wl.find? (fun e => e.value == idNumber || e.value == phone)

/-- `PoliceStation.findOne({ pincodes: hotelPincode })`: first station
whose pincode array contains the hotel pincode. -/
def stationFindByPincode (stations : List Station) (pc : String) : Option Station :=
  stations.find? (fun s => s.pincodes.contains pc)

/-- `Police.find({ policeStation: station._id })`. -/
def officersAtStation (police : List Officer) (stationId : Nat) : List Officer :=
  police.filter (fun o => o.policeStation == stationId)

/-- `RegionalAdmin.find({ status: 'Active' })`. -/
def activeAdmins (admins : List AdminUser) : List AdminUser :=
  admins.filter (fun a => a.status == "Active")

/-- The JS guard `if (!hotelPincode)`: truthy-empty test — an absent
field and the empty string are both falsy. -/
def pincodeFalsy : Option String → Bool
  | none => true
  | some s => s.isEmpty

/-- `Alert.create(...)`: Mongoose validates the `creatorModel` and
`status` enums on insert; a value outside the enum rejects the insert
(`ValidationError`), modelled as `none`. -/
def alertCreate (db : DB) (a : Alert) : Option DB :=
  if alertCreatorModels.contains a.creatorModel && alertStatuses.contains a.status then
    some { db with alerts := db.alerts ++ [a] }
  else none

/-- Enum validation of a single notification document. -/
def notificationValid (n : NotificationDoc) : Bool :=
  notificationRecipientModels.contains n.recipientModel

/-- The per-officer `Notification.create` calls awaited with
`Promise.all` in `checkWatchlistAndNotify`: each document is inserted
by its own store operation; any invalid document rejects. -/
def notificationsCreateEach : DB → List NotificationDoc → Option DB
  | db, [] => some db
  | db, d :: ds =>
    if notificationValid d then
      notificationsCreateEach { db with notifications := db.notifications ++ [d] } ds
    else none

/-- `Notification.insertMany(docs)` of the async variant: one single
underlying batch insert of the whole heterogeneous list. -/
def notificationInsertMany (db : DB) (docs : List NotificationDoc) : Option DB :=
  if docs.all notificationValid then
    some { db with notifications := db.notifications ++ docs }
  else none

/-- The alert reason string built by both orchestrators. -/
def alertReasonText (m : WatchlistEntry) : String :=
  "AUTOMATIC FLAG: Guest matched watchlist. Reason: \"" ++ m.reason
    ++ "\" (Match on: " ++ m.wtype ++ ")"

/-- The notification message string built by both orchestrators. -/
def notificationMessage (g : GuestDoc) (h : HotelDoc) (reason : String) : String :=
  "WATCHLIST MATCH: " ++ g.name ++ " checked into " ++ h.hotelName
    ++ " (Reason: " ++ reason ++ ")"

/-- The alert draft both orchestrators build from a watchlist match:
`createdBy = match.addedBy._id`, `creatorModel = match.addedByModel`,
`status = 'Open'`; the store assigns the identity (next index). -/
def autoAlertOf (db : DB) (g : GuestDoc) (m : WatchlistEntry) : Alert :=
  ⟨db.alerts.length, g.id, alertReasonText m, "Open", m.addedBy, m.addedByModel⟩

/-- The station-tagged officer notification draft. -/
def officerDraft (st : Station) (msg : String) (o : Officer) : NotificationDoc :=
  ⟨some st.id, o.id, "Police", msg, false⟩

/-- The station-less admin notification draft (async variant only). -/
def adminDraft (msg : String) (a : AdminUser) : NotificationDoc :=
  ⟨none, a.id, "RegionalAdmin", msg, false⟩

/-- The two socket emissions on the happy path: the station room and
the global admin room. -/
def happyEmits (st : Station) : List Emit :=
  [⟨"station_" ++ toString st.id, "NEW_ALERT", "WATCHLIST_HIT"⟩,
   ⟨"admin_global", "NEW_ALERT", "WATCHLIST_HIT_ADMIN"⟩]

/-- Body of `checkWatchlistAndNotify` in
`src/src/controllers/guest.controller.js` (the code inside its outer
`try`).  `Except.error s` models a JavaScript exception escaping the
try block with persisted state `s`; `Except.ok s` a normal return.
Control flow, in source order: watchlist lookup; no match → return;
`Alert.create` (before any pincode guard); pincode falsy → log error,
return; station lookup; none → return; officers fetch; empty → return;
per-officer `Notification.create` under `Promise.all`; socket emits
inside an inner `try` whose `catch` only logs. -/
def checkCore (db : DB) (fp : FailureProfile) (g : GuestDoc) (h : HotelDoc) :
    Except DispState DispState :=
  let s0 : DispState := ⟨db, [], []⟩
  if fp.watchlistFindFails then .error s0 else
  match watchlistFindOne db.watchlist g.idNumber g.phone with
  | none => .ok s0
  | some m =>
    if fp.alertInsertFails then .error s0 else
    let a := autoAlertOf db g m
    match alertCreate db a with
    | none => .error s0
    | some db1 =>
      let s1 : DispState := ⟨db1, [], [StoreOp.alertInsert a]⟩
      if pincodeFalsy h.pinCode then .ok s1 else
      let pc := h.pinCode.getD ""
      if fp.stationFindFails then .error s1 else
      match stationFindByPincode db.stations pc with
      | none => .ok s1
      | some st =>
        if fp.officersFindFails then .error s1 else
        let officers := officersAtStation db.police st.id
        if officers.isEmpty then .ok s1 else
        let msg := notificationMessage g h m.reason
        let docs := officers.map (officerDraft st msg)
        if fp.notificationInsertFails then .error s1 else
        match notificationsCreateEach db1 docs with
        | none => .error s1
        | some db2 =>
          let s2 : DispState :=
            ⟨db2, [], s1.ops ++ docs.map (fun d => StoreOp.notificationInsert [d])⟩
          if !fp.socketInitialized then .ok s2 else
          if fp.emitThrows then .ok s2 else
          .ok ⟨db2, happyEmits st, s2.ops⟩

/-- `checkWatchlistAndNotify`: the outer `try { ... } catch (error)`
around `checkCore` — the catch block only logs, so every escaped
exception is swallowed and the function returns normally. -/
def checkWatchlistAndNotify (db : DB) (fp : FailureProfile) (g : GuestDoc)
    (h : HotelDoc) : Except String DispState :=
  match checkCore db fp g h with
  | .ok s => .ok s
  | .error s => .ok s

/-- The state produced by one run of `checkWatchlistAndNotify`
(well-defined because the outer catch swallows every exception). -/
def runDispatch (db : DB) (fp : FailureProfile) (g : GuestDoc) (h : HotelDoc) :
    DispState :=
  match checkCore db fp g h with
  | .ok s => s
  | .error s => s

/-- Body of `checkWatchlistAndNotifyAsync` in `src/src/config/socket.js`
(the rewritten orchestrator).  Differences from `checkCore`, in source
order: the pincode guard runs before the alert write; the station
lookup and `Alert.create` run under one `Promise.all`; an empty
officer list returns before admins are fetched; admins
(`status: 'Active'`) get station-less drafts; all drafts go through a
single `Notification.insertMany`. -/
def checkAsyncCore (db : DB) (fp : FailureProfile) (g : GuestDoc) (h : HotelDoc) :
    Except DispState DispState :=
  let s0 : DispState := ⟨db, [], []⟩
  if fp.watchlistFindFails then .error s0 else
  match watchlistFindOne db.watchlist g.idNumber g.phone with
  | none => .ok s0
  | some m =>
    if pincodeFalsy h.pinCode then .ok s0 else
    let pc := h.pinCode.getD ""
    if fp.alertInsertFails then .error s0 else
    let a := autoAlertOf db g m
    match alertCreate db a with
    | none => .error s0
    | some db1 =>
      let s1 : DispState := ⟨db1, [], [StoreOp.alertInsert a]⟩
      if fp.stationFindFails then .error s1 else
      match stationFindByPincode db.stations pc with
      | none => .ok s1
      | some st =>
        if fp.officersFindFails then .error s1 else
        let officers := officersAtStation db.police st.id
        if officers.isEmpty then .ok s1 else
        let msg := notificationMessage g h m.reason
        let offDocs := officers.map (officerDraft st msg)
        if fp.adminsFindFails then .error s1 else
        let adms := activeAdmins db.admins
        let admDocs := adms.map (adminDraft msg)
        if fp.notificationInsertFails then .error s1 else
        match notificationInsertMany db1 (offDocs ++ admDocs) with
        | none => .error s1
        | some db2 =>
          let s2 : DispState :=
            ⟨db2, [], s1.ops ++ [StoreOp.notificationInsert (offDocs ++ admDocs)]⟩
          if !fp.socketInitialized then .ok s2 else
          if fp.emitThrows then .ok s2 else
          .ok ⟨db2, happyEmits st, s2.ops⟩

/-- `checkWatchlistAndNotifyAsync`: outer try/catch around
`checkAsyncCore`; the catch only logs. -/
def checkWatchlistAndNotifyAsync (db : DB) (fp : FailureProfile) (g : GuestDoc)
    (h : HotelDoc) : Except String DispState :=
  match checkAsyncCore db fp g h with
  | .ok s => .ok s
  | .error s => .ok s

/-- The state produced by one run of `checkWatchlistAndNotifyAsync`. -/
def runDispatchAsync (db : DB) (fp : FailureProfile) (g : GuestDoc) (h : HotelDoc) :
    DispState :=
  match checkAsyncCore db fp g h with
  | .ok s => s
  | .error s => s

/-- Outcome reported by `resolveAlert` to its HTTP caller:
`notFound` is the `ApiError(404, 'alert not found')` path, `ok` the
`200 OK` response carrying the saved alert. -/
inductive ResolveResult where
  | notFound : ResolveResult
  | ok : Alert → ResolveResult
deriving DecidableEq, Repr

/-- `Alert.findById(id)`. -/
def alertFindById (alerts : List Alert) (i : Nat) : Option Alert :=
  alerts.find? (fun a => a.id == i)

/-- Saving a modified document: the stored copy with this identity is
replaced by the saved one. -/
def replaceAlert (l : List Alert) (i : Nat) (a2 : Alert) : List Alert :=
  l.map (fun b => if b.id == i then a2 else b)

/-- `resolveAlert` (`guest.controller.js` lines 516–529): find the
alert; if absent, 404; otherwise set `status = 'Resolved'`
unconditionally and save, answering 200 with the updated alert. -/
def resolveAlert (db : DB) (i : Nat) : DB × ResolveResult :=
  match alertFindById db.alerts i with
  | none => (db, .notFound)
  | some a =>
    let a2 := { a with status := "Resolved" }
    ({ db with alerts := replaceAlert db.alerts i a2 }, .ok a2)

/-- The manual `createAlert` controller in the police controller
(`guest.controller.js`, second document, lines 476–503):
`Alert.create({ guest, reason, createdBy })` with no `status`
(Mongoose default `'Open'`) and no `creatorModel`; the schema marks
`creatorModel` required, so the missing tag (modelled as `""`) fails
validation and no document is inserted. -/
def createAlertManual (db : DB) (guestId : Nat) (reason : String) (uid : Nat) : DB :=
  match alertCreate db ⟨db.alerts.length, guestId, reason, "Open", uid, ""⟩ with
  | none => db
  | some db' => db'

/-- The repository operations that touch the `alerts` collection:
the two orchestrator variants, the manual `createAlert` controller and
`resolveAlert`. -/
inductive SysOp where
  | dispatchSync : FailureProfile → GuestDoc → HotelDoc → SysOp
  | dispatchAsync : FailureProfile → GuestDoc → HotelDoc → SysOp
  | manualCreate : Nat → String → Nat → SysOp
  | resolve : Nat → SysOp
deriving Repr

/-- Effect of one repository operation on the store. -/
def applyOp (db : DB) : SysOp → DB
  | .dispatchSync fp g h => (runDispatch db fp g h).db
  | .dispatchAsync fp g h => (runDispatchAsync db fp g h).db
  | .manualCreate gid r uid => createAlertManual db gid r uid
  | .resolve i => (resolveAlert db i).1

/-- A calendar date as JavaScript's `Date` accessors expose it:
`getFullYear()`, `getMonth()` (0-based) and `getDate()` (day of
month). -/
structure JsDate where
  year : Int
  month : Int
  day : Nat
deriving DecidableEq, Repr

/-- `calculateAge` exactly as written in
`src/src/controllers/guest.controller.js` lines 257–267 (the `!dob`
branch returning 99 aside): note the guard's same-month comparison is
`today.getDate() < today.getDate()` — the day of month compared
against itself. -/
def calculateAge (today dob : JsDate) : Int :=
  let age := today.year - dob.year
  let m := today.month - dob.month
  if m < 0 ∨ (m = 0 ∧ today.day < today.day) then age - 1 else age

/-- The repaired `calculateAge` in the rewritten controller appended
to `src/src/config/socket.js` (lines 123–133): the same-month guard
compares `today.getDate() < birthDate.getDate()`. -/
def calculateAgeFixed (today dob : JsDate) : Int :=
  let age := today.year - dob.year
  let m := today.month - dob.month
  if m < 0 ∨ (m = 0 ∧ today.day < dob.day) then age - 1 else age

/-- The accompanying-guest classification in `registerGuest`:
`age < 14 ? children : adults`. -/
def classifiedAsChild (age : Int) : Bool := age < 14

/-! Concrete fixtures, following Scenario A of the specification:
station with jurisdiction over `400001`, officers `o1`, `o2`, one
active admin, and a watchlist entry on ID value `X123`. -/

/-- Scenario station: jurisdiction `["400001"]`. -/
def st1 : Station := ⟨1, "Mumbai Central", "Mumbai", ["400001"]⟩

/-- First officer at `st1`. -/
def o1 : Officer := ⟨11, 1⟩

/-- Second officer at `st1`. -/
def o2 : Officer := ⟨12, 1⟩

/-- One active regional admin. -/
def a1 : AdminUser := ⟨21, "Active"⟩

/-- Watchlist entry on ID `X123`, authored by a police officer. -/
def entryPolice : WatchlistEntry := ⟨"X123", "ID_Number", "fraud suspect", 31, "Police"⟩

/-- The same flag authored by a regional admin: `addedByModel` is the
Watchlist-schema enum literal `'RegionalAdmin'` (no space). -/
def entryAdmin : WatchlistEntry := ⟨"X123", "ID_Number", "fraud suspect", 41, "RegionalAdmin"⟩

/-- A guest whose ID number matches the flagged value. -/
def gX : GuestDoc := ⟨100, "X123", "Suspicious Person", "555"⟩

/-- A guest matching nothing. -/
def gClean : GuestDoc := ⟨101, "NOMATCH", "Ordinary Person", "000"⟩

/-- Hotel with a resolvable pincode. -/
def hGrand : HotelDoc := ⟨some "400001", "Grand"⟩

/-- Hotel with an empty pincode (Scenario C). -/
def hNoPin : HotelDoc := ⟨some "", "Grand"⟩

/-- Store for the happy path: two officers, one active admin. -/
def dbHappy : DB := ⟨[entryPolice], [st1], [o1, o2], [a1], [], []⟩

/-- Store with no officers at the station but one active admin. -/
def dbNoOfficers : DB := ⟨[entryPolice], [st1], [], [a1], [], []⟩

/-- Store whose watchlist entry was authored by a regional admin. -/
def dbAdminEntry : DB := ⟨[entryAdmin], [st1], [o1, o2], [a1], [], []⟩

/-- Is this store operation a notification insert? -/
def isNotificationInsert : StoreOp → Bool
  | .notificationInsert _ => true
  | .alertInsert _ => false

/-! Helper lemmas about the store primitives. -/

theorem alertCreate_some {db : DB} {a : Alert} {db' : DB}
    (h : alertCreate db a = some db') :
    db' = { db with alerts := db.alerts ++ [a] } := by
  unfold alertCreate at h
  split at h
  · exact (Option.some.inj h).symm
  · exact absurd h (by simp)

theorem notificationsCreateEach_some :
    ∀ {docs : List NotificationDoc} {db db' : DB},
      notificationsCreateEach db docs = some db' →
      db' = { db with notifications := db.notifications ++ docs } := by
  intro docs
  induction docs with
  | nil =>
    intro db db' h
    simp only [notificationsCreateEach] at h
    simp [← Option.some.inj h]
  | cons d ds ih =>
    intro db db' h
    simp only [notificationsCreateEach] at h
    split at h
    · have := ih h
      simp [this]
    · exact absurd h (by simp)

theorem notificationInsertMany_some {db : DB} {docs : List NotificationDoc} {db' : DB}
    (h : notificationInsertMany db docs = some db') :
    db' = { db with notifications := db.notifications ++ docs } := by
  unfold notificationInsertMany at h
  split at h
  · exact (Option.some.inj h).symm
  · exact absurd h (by simp)

end ApnaManager

namespace ApnaManager

/-! Lemmas about `resolveAlert`'s save-by-replace. -/

theorem replaceAlert_find? {l : List Alert} {i : Nat} {a : Alert} (a2 : Alert)
    (h : alertFindById l i = some a) (h2 : a2.id = a.id) :
    alertFindById (replaceAlert l i a2) i = some a2 := by
  unfold alertFindById at h ⊢
  unfold replaceAlert
  induction l with
  | nil => simp at h
  | cons b t ih =>
    cases hb : (b.id == i) with
    | true =>
      simp only [List.find?, hb] at h
      obtain rfl : b = a := Option.some.inj h
      have ha2 : (a2.id == i) = true := by
        have hbi : b.id = i := by simpa using hb
        simp [h2, hbi]
      simp only [List.map_cons, if_pos hb, List.find?, ha2]
    | false =>
      simp only [List.find?, hb] at h
      simp only [List.map_cons, hb, Bool.false_eq_true, if_false, List.find?]
      exact ih h

theorem replaceAlert_idem (i : Nat) (a2 : Alert) (l : List Alert) :
    replaceAlert (replaceAlert l i a2) i a2 = replaceAlert l i a2 := by
  unfold replaceAlert
  induction l with
  | nil => rfl
  | cons b t ih =>
    cases hb : (b.id == i) with
    | true => simp only [List.map_cons, if_pos hb, ih, ite_self]
    | false => simp only [List.map_cons, hb, Bool.false_eq_true, if_false, ih]

/-- C9: the resolve operation is idempotent.  Resolving an alert whose
status is already `Resolved` reports success (`ResolveResult.ok` with
the unchanged alert, never an error) and leaves it `Resolved`; and
running `resolveAlert` a second time returns exactly the store and
response of the first run. -/
theorem resolveAlert_idempotent (db : DB) (i : Nat) :
    (∀ a, alertFindById db.alerts i = some a → a.status = "Resolved" →
        (resolveAlert db i).2 = ResolveResult.ok a
        ∧ alertFindById (resolveAlert db i).1.alerts i = some a)
    ∧ resolveAlert ((resolveAlert db i).1) i = resolveAlert db i := by
  constructor
  · intro a hFind hRes
    have ha2 : { a with status := "Resolved" } = a := by
      cases a
      simp only [Alert.mk.injEq]
      simp_all
    constructor
    · simp only [resolveAlert, hFind, ha2]
    · have hafter := replaceAlert_find? { a with status := "Resolved" } hFind rfl
      rw [ha2] at hafter
      simp only [resolveAlert, hFind, ha2]
      exact hafter
  · cases hF : alertFindById db.alerts i with
    | none => simp [resolveAlert, hF]
    | some a =>
      have hafter := replaceAlert_find? { a with status := "Resolved" } hF rfl
      simp only [resolveAlert, hF]
      simp only [hafter]
      rw [replaceAlert_idem]

/-- Witness for C9: a store holding one already-resolved alert; the
theorem applied there shows resolve answers `ok` with the alert
unchanged, still finds it `Resolved` afterwards, and a second resolve
equals the first. -/
theorem resolveAlert_idempotent_witness :
    (resolveAlert ⟨[], [], [], [], [⟨0, 100, "r", "Resolved", 31, "Police"⟩], []⟩ 0).2
        = ResolveResult.ok ⟨0, 100, "r", "Resolved", 31, "Police"⟩
    ∧ resolveAlert
        ((resolveAlert ⟨[], [], [], [], [⟨0, 100, "r", "Resolved", 31, "Police"⟩], []⟩ 0).1) 0
      = resolveAlert ⟨[], [], [], [], [⟨0, 100, "r", "Resolved", 31, "Police"⟩], []⟩ 0 := by
  have h := resolveAlert_idempotent
    ⟨[], [], [], [], [⟨0, 100, "r", "Resolved", 31, "Police"⟩], []⟩ 0
  exact ⟨(h.1 ⟨0, 100, "r", "Resolved", 31, "Police"⟩ (by decide) rfl).1, h.2⟩

/-- C10: `calculateAge`'s same-month guard compares today's
day-of-month with itself, so for a birthday later in the current month
the age is the raw year difference (no decrement), unlike the repaired
`calculateAgeFixed`; at a raw difference of 14 the guest is classified
as an adult (`classifiedAsChild = false`) although the corrected age
13 would classify them as a child. -/
theorem calculateAge_same_month_bug (today dob : JsDate)
    (hm : dob.month = today.month) (hd : today.day < dob.day) :
    calculateAge today dob = today.year - dob.year
    ∧ calculateAgeFixed today dob = today.year - dob.year - 1
    ∧ (today.year - dob.year = 14 →
        classifiedAsChild (calculateAge today dob) = false
        ∧ classifiedAsChild (calculateAgeFixed today dob) = true) := by
  have h1 : calculateAge today dob = today.year - dob.year := by
    simp [calculateAge, hm]
  have h2 : calculateAgeFixed today dob = today.year - dob.year - 1 := by
    simp [calculateAgeFixed, hm, hd]
  refine ⟨h1, h2, fun h14 => ⟨?_, ?_⟩⟩
  · simp [classifiedAsChild, h1, h14]
  · simp [classifiedAsChild, h2, h14]

/-- Witness for C10: on 2026-10-12 (month index 9), a guest born
2012-10-20 turns 14 later in the month; `calculateAge` answers 14 and
the guest is classified as an adult, while the repaired computation
answers 13 (a child). -/
theorem calculateAge_same_month_bug_witness :
    calculateAge ⟨2026, 9, 12⟩ ⟨2012, 9, 20⟩ = 14
    ∧ classifiedAsChild (calculateAge ⟨2026, 9, 12⟩ ⟨2012, 9, 20⟩) = false
    ∧ calculateAgeFixed ⟨2026, 9, 12⟩ ⟨2012, 9, 20⟩ = 13
    ∧ classifiedAsChild (calculateAgeFixed ⟨2026, 9, 12⟩ ⟨2012, 9, 20⟩) = true := by
  have h := calculateAge_same_month_bug ⟨2026, 9, 12⟩ ⟨2012, 9, 20⟩ rfl (by decide)
  have h14 : (⟨2026, 9, 12⟩ : JsDate).year - (⟨2012, 9, 20⟩ : JsDate).year = 14 := by decide
  refine ⟨?_, (h.2.2 h14).1, ?_, (h.2.2 h14).2⟩
  · rw [h.1]; decide
  · rw [h.2.1]; decide

end ApnaManager

namespace ApnaManager

theorem runDispatch_db_socket_indep (db : DB) (g : GuestDoc) (h : HotelDoc)
    (b1 b2 : Bool) :
    (runDispatch db ⟨false, false, false, false, false, false, b1, b2⟩ g h).db
      = (runDispatch db noFailures g h).db := by
  unfold runDispatch checkCore noFailures
  cases hM : watchlistFindOne db.watchlist g.idNumber g.phone with
  | none => simp
  | some m =>
    simp only [hM, Bool.false_eq_true, if_false]
    cases hA : alertCreate db (autoAlertOf db g m) with
    | none => simp
    | some db1 =>
      simp only [hA]
      by_cases hPF : pincodeFalsy h.pinCode
      · simp [hPF]
      · simp only [hPF, Bool.false_eq_true, if_false]
        cases hST : stationFindByPincode db.stations (h.pinCode.getD "") with
        | none => simp
        | some st =>
          simp only [hST]
          by_cases hOF : (officersAtStation db.police st.id).isEmpty
          · simp [hOF]
          · simp only [hOF, Bool.false_eq_true, if_false]
            cases hN : notificationsCreateEach db1
                ((officersAtStation db.police st.id).map
                  (officerDraft st (notificationMessage g h m.reason))) with
            | none => simp
            | some db2 =>
              simp only [hN]
              cases b1 <;> cases b2 <;> simp
theorem runDispatchAsync_db_socket_indep (db : DB) (g : GuestDoc) (h : HotelDoc)
    (b1 b2 : Bool) :
    (runDispatchAsync db ⟨false, false, false, false, false, false, b1, b2⟩ g h).db
      = (runDispatchAsync db noFailures g h).db := by
  unfold runDispatchAsync checkAsyncCore noFailures
  cases hM : watchlistFindOne db.watchlist g.idNumber g.phone with
  | none => simp
  | some m =>
    simp only [hM, Bool.false_eq_true, if_false]
    by_cases hPF : pincodeFalsy h.pinCode
    · simp [hPF]
    · simp only [hPF, Bool.false_eq_true, if_false]
      cases hA : alertCreate db (autoAlertOf db g m) with
      | none => simp
      | some db1 =>
        simp only [hA]
        cases hST : stationFindByPincode db.stations (h.pinCode.getD "") with
        | none => simp
        | some st =>
          simp only [hST]
          by_cases hOF : (officersAtStation db.police st.id).isEmpty
          · simp [hOF]
          · simp only [hOF, Bool.false_eq_true, if_false]
            cases hN : notificationInsertMany db1
                (((officersAtStation db.police st.id).map
                    (officerDraft st (notificationMessage g h m.reason)))
                  ++ (activeAdmins db.admins).map
                      (adminDraft (notificationMessage g h m.reason))) with
            | none => simp
            | some db2 =>
              simp only [hN]
              cases b1 <;> cases b2 <;> simp

/-- C5: dispatch never propagates an exception into the
guest-registration request path.  First conjunct: for every store
state, failure profile and input, both orchestrator wrappers return
normally (`Except.ok`) with the run's final state — every internal
throw is swallowed by the outer catch.  Second conjunct: a broadcaster
failure (transport throwing, or `getIO` raising because the socket
server is uninitialized) leaves the persisted store — including the
already-written notifications — exactly as in the failure-free run. -/
theorem dispatch_never_propagates :
    (∀ (db : DB) (fp : FailureProfile) (g : GuestDoc) (h : HotelDoc),
        checkWatchlistAndNotify db fp g h = Except.ok (runDispatch db fp g h)
        ∧ checkWatchlistAndNotifyAsync db fp g h = Except.ok (runDispatchAsync db fp g h))
    ∧ (∀ (db : DB) (g : GuestDoc) (h : HotelDoc),
        (runDispatch db { noFailures with emitThrows := true } g h).db
          = (runDispatch db noFailures g h).db
        ∧ (runDispatch db { noFailures with socketInitialized := false } g h).db
          = (runDispatch db noFailures g h).db
        ∧ (runDispatchAsync db { noFailures with emitThrows := true } g h).db
          = (runDispatchAsync db noFailures g h).db
        ∧ (runDispatchAsync db { noFailures with socketInitialized := false } g h).db
          = (runDispatchAsync db noFailures g h).db) := by
  constructor
  · intro db fp g h
    constructor
    · unfold checkWatchlistAndNotify runDispatch
      cases checkCore db fp g h <;> rfl
    · unfold checkWatchlistAndNotifyAsync runDispatchAsync
      cases checkAsyncCore db fp g h <;> rfl
  · intro db g h
    exact ⟨runDispatch_db_socket_indep db g h true true,
           runDispatch_db_socket_indep db g h false false,
           runDispatchAsync_db_socket_indep db g h true true,
           runDispatchAsync_db_socket_indep db g h false false⟩
/-- C6: a guest whose `idNumber` and `phone` match no stored watchlist
value terminates the dispatch at the index lookup: both orchestrators
leave the store untouched, emit nothing and perform no store write
operation. -/
theorem dispatch_no_match_no_writes (db : DB) (fp : FailureProfile)
    (g : GuestDoc) (h : HotelDoc)
    (hno : ∀ e ∈ db.watchlist, e.value ≠ g.idNumber ∧ e.value ≠ g.phone) :
    runDispatch db fp g h = ⟨db, [], []⟩
    ∧ runDispatchAsync db fp g h = ⟨db, [], []⟩ := by
  have hM : watchlistFindOne db.watchlist g.idNumber g.phone = none := by
    unfold watchlistFindOne
    rw [List.find?_eq_none]
    intro e he
    have := hno e he
    simp [this.1, this.2]
  cases hwf : fp.watchlistFindFails with
  | true =>
    constructor
    · unfold runDispatch checkCore
      simp [hwf]
    · unfold runDispatchAsync checkAsyncCore
      simp [hwf]
  | false =>
    constructor
    · unfold runDispatch checkCore
      simp [hwf, hM]
    · unfold runDispatchAsync checkAsyncCore
      simp [hwf, hM]

/-- Witness for C6: the clean guest of Scenario B against the
Scenario A store. -/
theorem dispatch_no_match_no_writes_witness :
    runDispatch dbHappy noFailures gClean hGrand = ⟨dbHappy, [], []⟩
    ∧ runDispatchAsync dbHappy noFailures gClean hGrand = ⟨dbHappy, [], []⟩ :=
  dispatch_no_match_no_writes dbHappy noFailures gClean hGrand (by decide)
theorem runDispatch_notifications_alert (db : DB) (fp : FailureProfile)
    (g : GuestDoc) (h : HotelDoc) :
    (runDispatch db fp g h).db.notifications ≠ db.notifications →
      ∃ a, (runDispatch db fp g h).db.alerts = db.alerts ++ [a] := by
  unfold runDispatch checkCore
  cases hwf : fp.watchlistFindFails with
  | true => simp
  | false =>
    simp only [Bool.false_eq_true, if_false]
    cases hM : watchlistFindOne db.watchlist g.idNumber g.phone with
    | none => simp
    | some m =>
      simp only []
      cases hai : fp.alertInsertFails with
      | true => simp
      | false =>
        simp only [Bool.false_eq_true, if_false]
        cases hA : alertCreate db (autoAlertOf db g m) with
        | none => simp
        | some db1 =>
          obtain rfl := alertCreate_some hA
          simp only []
          by_cases hPF : pincodeFalsy h.pinCode
          · simp [hPF]
          · simp only [hPF, Bool.false_eq_true, if_false]
            cases hsf : fp.stationFindFails with
            | true => simp
            | false =>
              simp only [Bool.false_eq_true, if_false]
              cases hST : stationFindByPincode db.stations (h.pinCode.getD "") with
              | none => simp
              | some st =>
                simp only []
                cases hof : fp.officersFindFails with
                | true => simp
                | false =>
                  simp only [Bool.false_eq_true, if_false]
                  by_cases hOF : (officersAtStation db.police st.id).isEmpty
                  · simp [hOF]
                  · simp only [hOF, Bool.false_eq_true, if_false]
                    cases hnf : fp.notificationInsertFails with
                    | true => simp
                    | false =>
                      simp only [Bool.false_eq_true, if_false]
                      cases hN : notificationsCreateEach
                          { db with alerts := db.alerts ++ [autoAlertOf db g m] }
                          ((officersAtStation db.police st.id).map
                            (officerDraft st (notificationMessage g h m.reason))) with
                      | none => simp
                      | some db2 =>
                        obtain rfl := notificationsCreateEach_some hN
                        cases hsi : fp.socketInitialized <;>
                          cases het : fp.emitThrows <;>
                          · intro _
                            exact ⟨autoAlertOf db g m, by simp⟩
theorem runDispatchAsync_notifications_alert (db : DB) (fp : FailureProfile)
    (g : GuestDoc) (h : HotelDoc) :
    (runDispatchAsync db fp g h).db.notifications ≠ db.notifications →
      ∃ a, (runDispatchAsync db fp g h).db.alerts = db.alerts ++ [a] := by
  unfold runDispatchAsync checkAsyncCore
  cases hwf : fp.watchlistFindFails with
  | true => simp
  | false =>
    simp only [Bool.false_eq_true, if_false]
    cases hM : watchlistFindOne db.watchlist g.idNumber g.phone with
    | none => simp
    | some m =>
      simp only []
      by_cases hPF : pincodeFalsy h.pinCode
      · simp [hPF]
      · simp only [hPF, Bool.false_eq_true, if_false]
        cases hai : fp.alertInsertFails with
        | true => simp
        | false =>
          simp only [Bool.false_eq_true, if_false]
          cases hA : alertCreate db (autoAlertOf db g m) with
          | none => simp
          | some db1 =>
            obtain rfl := alertCreate_some hA
            simp only []
            cases hsf : fp.stationFindFails with
            | true => simp
            | false =>
              simp only [Bool.false_eq_true, if_false]
              cases hST : stationFindByPincode db.stations (h.pinCode.getD "") with
              | none => simp
              | some st =>
                simp only []
                cases hof : fp.officersFindFails with
                | true => simp
                | false =>
                  simp only [Bool.false_eq_true, if_false]
                  by_cases hOF : (officersAtStation db.police st.id).isEmpty
                  · simp [hOF]
                  · simp only [hOF, Bool.false_eq_true, if_false]
                    cases haf : fp.adminsFindFails with
                    | true => simp
                    | false =>
                      simp only [Bool.false_eq_true, if_false]
                      cases hnf : fp.notificationInsertFails with
                      | true => simp
                      | false =>
                        simp only [Bool.false_eq_true, if_false]
                        cases hN : notificationInsertMany
                            { db with alerts := db.alerts ++ [autoAlertOf db g m] }
                            (((officersAtStation db.police st.id).map
                                (officerDraft st (notificationMessage g h m.reason)))
                              ++ (activeAdmins db.admins).map
                                  (adminDraft (notificationMessage g h m.reason))) with
                        | none => simp
                        | some db2 =>
                          obtain rfl := notificationInsertMany_some hN
                          cases hsi : fp.socketInitialized <;>
                            cases het : fp.emitThrows <;>
                            · intro _
                              exact ⟨autoAlertOf db g m, by simp⟩

theorem runDispatch_alertFail_db (db : DB) (fp : FailureProfile)
    (g : GuestDoc) (h : HotelDoc) (hai : fp.alertInsertFails = true) :
    (runDispatch db fp g h).db = db ∧ (runDispatchAsync db fp g h).db = db := by
  constructor
  · unfold runDispatch checkCore
    cases hwf : fp.watchlistFindFails with
    | true => simp
    | false =>
      simp only [Bool.false_eq_true, if_false]
      cases hM : watchlistFindOne db.watchlist g.idNumber g.phone with
      | none => simp
      | some m => simp [hai]
  · unfold runDispatchAsync checkAsyncCore
    cases hwf : fp.watchlistFindFails with
    | true => simp
    | false =>
      simp only [Bool.false_eq_true, if_false]
      cases hM : watchlistFindOne db.watchlist g.idNumber g.phone with
      | none => simp
      | some m =>
        by_cases hPF : pincodeFalsy h.pinCode
        · simp [hPF]
        · simp [hPF, hai]

/-- C7: in every run of either orchestrator, notifications are only
written after a successful alert write: if the final store's
notifications differ from the initial ones, the final store's alerts
are the initial ones extended by exactly the one freshly created
alert; and when the alert insert fails, zero notifications are
written. -/
theorem notifications_require_alert (db : DB) (fp : FailureProfile)
    (g : GuestDoc) (h : HotelDoc) :
    ((runDispatch db fp g h).db.notifications ≠ db.notifications →
       ∃ a, (runDispatch db fp g h).db.alerts = db.alerts ++ [a])
    ∧ ((runDispatchAsync db fp g h).db.notifications ≠ db.notifications →
       ∃ a, (runDispatchAsync db fp g h).db.alerts = db.alerts ++ [a])
    ∧ (fp.alertInsertFails = true →
        (runDispatch db fp g h).db.notifications = db.notifications
        ∧ (runDispatchAsync db fp g h).db.notifications = db.notifications) := by
  refine ⟨runDispatch_notifications_alert db fp g h,
          runDispatchAsync_notifications_alert db fp g h, fun hai => ?_⟩
  have hd := runDispatch_alertFail_db db fp g h hai
  rw [hd.1, hd.2]
  exact ⟨rfl, rfl⟩

/-- Witness for C7: in the Scenario A run notifications were written,
so the theorem yields the appended alert. -/
theorem notifications_require_alert_witness :
    ∃ a, (runDispatch dbHappy noFailures gX hGrand).db.alerts = dbHappy.alerts ++ [a] :=
  (notifications_require_alert dbHappy noFailures gX hGrand).1 (by decide)

end ApnaManager

namespace ApnaManager

/-- C2 (failing input): the Watchlist schema tags an admin author as
`'RegionalAdmin'` (no space) while the Alert schema's `creatorModel`
enum only admits `'Regional Admin'` (with a space), so dispatching a
guest matching an admin-authored watchlist entry makes the
`Alert.create` enum validation reject the insert in both orchestrators
and zero Alerts are written — attribution is not preserved; the same
run with a police-authored entry writes the one attributed alert. -/
theorem dispatch_regionalAdmin_attribution_fails :
    watchlistFindOne dbAdminEntry.watchlist gX.idNumber gX.phone = some entryAdmin
    ∧ entryAdmin.addedByModel = "RegionalAdmin"
    ∧ watchlistAddedByModels.contains "RegionalAdmin" = true
    ∧ alertCreatorModels.contains "RegionalAdmin" = false
    ∧ (runDispatch dbAdminEntry noFailures gX hGrand).db.alerts = []
    ∧ (runDispatchAsync dbAdminEntry noFailures gX hGrand).db.alerts = []
    ∧ (runDispatch dbHappy noFailures gX hGrand).db.alerts
        = [⟨0, gX.id, alertReasonText entryPolice, "Open", entryPolice.addedBy, "Police"⟩] := by
  decide

/-- C1 (counterexample): a station with zero officers and one active
admin — the async orchestrator returns at the empty officer list
before fetching admins, so zero Notifications are written (the claim
expects the admin notification regardless) and nothing is emitted. -/
theorem dispatchAsync_empty_officers_skips_admins :
    watchlistFindOne dbNoOfficers.watchlist gX.idNumber gX.phone = some entryPolice
    ∧ stationFindByPincode dbNoOfficers.stations "400001" = some st1
    ∧ officersAtStation dbNoOfficers.police st1.id = []
    ∧ activeAdmins dbNoOfficers.admins = [a1]
    ∧ (runDispatchAsync dbNoOfficers noFailures gX hGrand).db.notifications = []
    ∧ (runDispatchAsync dbNoOfficers noFailures gX hGrand).emits = [] := by
  decide

/-- C3 (counterexample): with two officers,
`checkWatchlistAndNotify` performs two separate notification insert
operations (one `Notification.create` per officer under
`Promise.all`), not one single batch insert — and builds no admin
draft at all; only `checkWatchlistAndNotifyAsync` uses a single
`insertMany`. -/
theorem dispatch_per_officer_inserts :
    officersAtStation dbHappy.police st1.id = [o1, o2]
    ∧ (runDispatch dbHappy noFailures gX hGrand).ops
        = [StoreOp.alertInsert (autoAlertOf dbHappy gX entryPolice),
           StoreOp.notificationInsert
             [officerDraft st1 (notificationMessage gX hGrand entryPolice.reason) o1],
           StoreOp.notificationInsert
             [officerDraft st1 (notificationMessage gX hGrand entryPolice.reason) o2]]
    ∧ ((runDispatch dbHappy noFailures gX hGrand).ops.filter isNotificationInsert).length = 2
    ∧ ((runDispatchAsync dbHappy noFailures gX hGrand).ops.filter isNotificationInsert).length = 1 := by
  decide
/-- C4: when the watchlist matched (and the alert insert passes
validation) but the hotel pincode is falsy, or a pincode resolves to
no station, `checkWatchlistAndNotify` returns gracefully (`Except.ok`,
no exception) having persisted exactly the one automatic alert, with
zero notifications and zero emissions. -/
theorem dispatch_station_miss_graceful (db : DB) (g : GuestDoc) (h : HotelDoc)
    (m : WatchlistEntry)
    (hM : watchlistFindOne db.watchlist g.idNumber g.phone = some m)
    (hCM : alertCreatorModels.contains m.addedByModel = true)
    (hmiss : pincodeFalsy h.pinCode = true
      ∨ (pincodeFalsy h.pinCode = false
         ∧ stationFindByPincode db.stations (h.pinCode.getD "") = none)) :
    checkCore db noFailures g h
      = Except.ok ⟨{ db with alerts := db.alerts ++ [autoAlertOf db g m] }, [],
                   [StoreOp.alertInsert (autoAlertOf db g m)]⟩ := by
  have hA : alertCreate db (autoAlertOf db g m)
      = some { db with alerts := db.alerts ++ [autoAlertOf db g m] } := by
    unfold alertCreate autoAlertOf
    simp [alertStatuses]
    simpa using hCM
  unfold checkCore noFailures
  simp only [hM, hA, Bool.false_eq_true, if_false]
  rcases hmiss with hpf | ⟨hpf, hst⟩
  · simp [hpf]
  · simp [hpf, hst]

/-- Witness for C4: Scenario C — empty hotel pincode. -/
theorem dispatch_station_miss_graceful_witness :
    checkCore dbHappy noFailures gX hNoPin
      = Except.ok ⟨{ dbHappy with alerts := dbHappy.alerts ++ [autoAlertOf dbHappy gX entryPolice] },
                   [], [StoreOp.alertInsert (autoAlertOf dbHappy gX entryPolice)]⟩ :=
  dispatch_station_miss_graceful dbHappy gX hNoPin entryPolice (by decide) (by decide)
    (Or.inl (by decide))
/-- C1 (amended): on a match with resolvable jurisdiction, officers
`[x, y]` and exactly one active admin, `checkWatchlistAndNotifyAsync`
writes exactly 3 notifications — two station-tagged officer drafts and
one station-less admin draft; but when the officer list is empty the
pipeline returns before the admin fetch and writes zero notifications
(admins are not notified independently). -/
theorem dispatchAsync_recipient_fanout (db : DB) (g : GuestDoc) (h : HotelDoc)
    (m : WatchlistEntry) (pc : String) (st : Station) (x y : Officer) (ad : AdminUser)
    (hM : watchlistFindOne db.watchlist g.idNumber g.phone = some m)
    (hCM : alertCreatorModels.contains m.addedByModel = true)
    (hPC : h.pinCode = some pc) (hne : pc ≠ "")
    (hST : stationFindByPincode db.stations pc = some st)
    (hAD : activeAdmins db.admins = [ad]) :
    (officersAtStation db.police st.id = [x, y] →
       (runDispatchAsync db noFailures g h).db.notifications
         = db.notifications
             ++ [officerDraft st (notificationMessage g h m.reason) x,
                 officerDraft st (notificationMessage g h m.reason) y,
                 adminDraft (notificationMessage g h m.reason) ad])
    ∧ (officersAtStation db.police st.id = [] →
       (runDispatchAsync db noFailures g h).db.notifications = db.notifications) := by
  have hPF : pincodeFalsy h.pinCode = false := by
    rw [hPC]
    show pc.isEmpty = false
    rw [Bool.eq_false_iff]
    intro hc
    exact hne ((String.isEmpty_iff pc).mp hc)
  have hA : alertCreate db (autoAlertOf db g m)
      = some { db with alerts := db.alerts ++ [autoAlertOf db g m] } := by
    unfold alertCreate autoAlertOf
    simp [alertStatuses]
    simpa using hCM
  have hgd : h.pinCode.getD "" = pc := by rw [hPC]; rfl
  constructor
  · intro hOff
    unfold runDispatchAsync checkAsyncCore noFailures
    simp only [hM, hPF, Bool.false_eq_true, if_false, hA, hgd, hST, hOff, hAD]
    simp [notificationInsertMany, notificationValid, officerDraft, adminDraft,
      notificationRecipientModels]
  · intro hOff
    unfold runDispatchAsync checkAsyncCore noFailures
    simp only [hM, hPF, Bool.false_eq_true, if_false, hA, hgd, hST, hOff]
    simp

/-- Witness for C1: Scenario A store with officers `o1`, `o2` and
admin `a1` yields the three notifications. -/
theorem dispatchAsync_recipient_fanout_witness :
    (runDispatchAsync dbHappy noFailures gX hGrand).db.notifications
      = [officerDraft st1 (notificationMessage gX hGrand entryPolice.reason) o1,
         officerDraft st1 (notificationMessage gX hGrand entryPolice.reason) o2,
         adminDraft (notificationMessage gX hGrand entryPolice.reason) a1] := by
  have h := (dispatchAsync_recipient_fanout dbHappy gX hGrand entryPolice "400001" st1
      o1 o2 a1 (by decide) (by decide) rfl (by decide) (by decide) (by decide)).1 (by decide)
  simpa using h
/-- C3 (amended): `checkWatchlistAndNotifyAsync` submits at most one
underlying notification insert operation per run, and any notification
insert it performs carries the entire written batch (officer drafts
and admin drafts together); `checkWatchlistAndNotify` instead issues
only single-document inserts, one per officer. -/
theorem notification_batching (db : DB) (fp : FailureProfile)
    (g : GuestDoc) (h : HotelDoc) :
    (((runDispatchAsync db fp g h).ops.filter isNotificationInsert).length ≤ 1
      ∧ ∀ docs, StoreOp.notificationInsert docs ∈ (runDispatchAsync db fp g h).ops →
          (runDispatchAsync db fp g h).db.notifications = db.notifications ++ docs)
    ∧ (∀ docs, StoreOp.notificationInsert docs ∈ (runDispatch db fp g h).ops →
        docs.length = 1) := by
  constructor
  · unfold runDispatchAsync checkAsyncCore
    cases hwf : fp.watchlistFindFails with
    | true => simp [isNotificationInsert]
    | false =>
      simp only [Bool.false_eq_true, if_false]
      cases hM : watchlistFindOne db.watchlist g.idNumber g.phone with
      | none => simp [isNotificationInsert]
      | some m =>
        simp only []
        by_cases hPF : pincodeFalsy h.pinCode
        · simp [hPF, isNotificationInsert]
        · simp only [hPF, Bool.false_eq_true, if_false]
          cases hai : fp.alertInsertFails with
          | true => simp [isNotificationInsert]
          | false =>
            simp only [Bool.false_eq_true, if_false]
            cases hA : alertCreate db (autoAlertOf db g m) with
            | none => simp [isNotificationInsert]
            | some db1 =>
              obtain rfl := alertCreate_some hA
              simp only []
              cases hsf : fp.stationFindFails with
              | true => simp [isNotificationInsert]
              | false =>
                simp only [Bool.false_eq_true, if_false]
                cases hST : stationFindByPincode db.stations (h.pinCode.getD "") with
                | none => simp [isNotificationInsert]
                | some st =>
                  simp only []
                  cases hof : fp.officersFindFails with
                  | true => simp [isNotificationInsert]
                  | false =>
                    simp only [Bool.false_eq_true, if_false]
                    by_cases hOF : (officersAtStation db.police st.id).isEmpty
                    · simp [hOF, isNotificationInsert]
                    · simp only [hOF, Bool.false_eq_true, if_false]
                      cases haf : fp.adminsFindFails with
                      | true => simp [isNotificationInsert]
                      | false =>
                        simp only [Bool.false_eq_true, if_false]
                        cases hnf : fp.notificationInsertFails with
                        | true => simp [isNotificationInsert]
                        | false =>
                          simp only [Bool.false_eq_true, if_false]
                          cases hN : notificationInsertMany
                              { db with alerts := db.alerts ++ [autoAlertOf db g m] }
                              (((officersAtStation db.police st.id).map
                                  (officerDraft st (notificationMessage g h m.reason)))
                                ++ (activeAdmins db.admins).map
                                    (adminDraft (notificationMessage g h m.reason))) with
                          | none => simp [isNotificationInsert]
                          | some db2 =>
                            obtain rfl := notificationInsertMany_some hN
                            cases hsi : fp.socketInitialized <;>
                              cases het : fp.emitThrows <;>
                              · constructor
                                · simp [isNotificationInsert]
                                · intro docs hmem
                                  simp [isNotificationInsert] at hmem
                                  simp [hmem]
  · unfold runDispatch checkCore
    cases hwf : fp.watchlistFindFails with
    | true => simp
    | false =>
      simp only [Bool.false_eq_true, if_false]
      cases hM : watchlistFindOne db.watchlist g.idNumber g.phone with
      | none => simp
      | some m =>
        simp only []
        cases hai : fp.alertInsertFails with
        | true => simp
        | false =>
          simp only [Bool.false_eq_true, if_false]
          cases hA : alertCreate db (autoAlertOf db g m) with
          | none => simp
          | some db1 =>
            simp only []
            by_cases hPF : pincodeFalsy h.pinCode
            · simp [hPF]
            · simp only [hPF, Bool.false_eq_true, if_false]
              cases hsf : fp.stationFindFails with
              | true => simp
              | false =>
                simp only [Bool.false_eq_true, if_false]
                cases hST : stationFindByPincode db.stations (h.pinCode.getD "") with
                | none => simp
                | some st =>
                  simp only []
                  cases hof : fp.officersFindFails with
                  | true => simp
                  | false =>
                    simp only [Bool.false_eq_true, if_false]
                    by_cases hOF : (officersAtStation db.police st.id).isEmpty
                    · simp [hOF]
                    · simp only [hOF, Bool.false_eq_true, if_false]
                      cases hnf : fp.notificationInsertFails with
                      | true => simp
                      | false =>
                        simp only [Bool.false_eq_true, if_false]
                        cases hN : notificationsCreateEach db1
                            ((officersAtStation db.police st.id).map
                              (officerDraft st (notificationMessage g h m.reason))) with
                        | none => simp
                        | some db2 =>
                          cases hsi : fp.socketInitialized <;>
                            cases het : fp.emitThrows <;>
                            · intro docs hmem
                              simp at hmem
                              obtain ⟨d, _, hd⟩ := hmem
                              simp [← hd]

/-- Witness for C3: the Scenario A async run's single batch contains
the two officer drafts and the admin draft. -/
theorem notification_batching_witness :
    (runDispatchAsync dbHappy noFailures gX hGrand).db.notifications
      = dbHappy.notifications
          ++ [officerDraft st1 (notificationMessage gX hGrand entryPolice.reason) o1,
              officerDraft st1 (notificationMessage gX hGrand entryPolice.reason) o2,
              adminDraft (notificationMessage gX hGrand entryPolice.reason) a1] :=
  (notification_batching dbHappy noFailures gX hGrand).1.2
    [officerDraft st1 (notificationMessage gX hGrand entryPolice.reason) o1,
     officerDraft st1 (notificationMessage gX hGrand entryPolice.reason) o2,
     adminDraft (notificationMessage gX hGrand entryPolice.reason) a1] (by decide)
theorem runDispatch_alerts (db : DB) (fp : FailureProfile) (g : GuestDoc) (h : HotelDoc) :
    (runDispatch db fp g h).db.alerts = db.alerts
    ∨ ∃ m, (runDispatch db fp g h).db.alerts = db.alerts ++ [autoAlertOf db g m] := by
  unfold runDispatch checkCore
  cases hwf : fp.watchlistFindFails with
  | true => simp
  | false =>
    simp only [Bool.false_eq_true, if_false]
    cases hM : watchlistFindOne db.watchlist g.idNumber g.phone with
    | none => simp
    | some m =>
      simp only []
      cases hai : fp.alertInsertFails with
      | true => simp
      | false =>
        simp only [Bool.false_eq_true, if_false]
        cases hA : alertCreate db (autoAlertOf db g m) with
        | none => simp
        | some db1 =>
          obtain rfl := alertCreate_some hA
          simp only []
          by_cases hPF : pincodeFalsy h.pinCode
          · exact Or.inr ⟨m, by simp [hPF]⟩
          · simp only [hPF, Bool.false_eq_true, if_false]
            cases hsf : fp.stationFindFails with
            | true => exact Or.inr ⟨m, by simp⟩
            | false =>
              simp only [Bool.false_eq_true, if_false]
              cases hST : stationFindByPincode db.stations (h.pinCode.getD "") with
              | none => exact Or.inr ⟨m, by simp⟩
              | some st =>
                simp only []
                cases hof : fp.officersFindFails with
                | true => exact Or.inr ⟨m, by simp⟩
                | false =>
                  simp only [Bool.false_eq_true, if_false]
                  by_cases hOF : (officersAtStation db.police st.id).isEmpty
                  · exact Or.inr ⟨m, by simp [hOF]⟩
                  · simp only [hOF, Bool.false_eq_true, if_false]
                    cases hnf : fp.notificationInsertFails with
                    | true => exact Or.inr ⟨m, by simp⟩
                    | false =>
                      simp only [Bool.false_eq_true, if_false]
                      cases hN : notificationsCreateEach
                          { db with alerts := db.alerts ++ [autoAlertOf db g m] }
                          ((officersAtStation db.police st.id).map
                            (officerDraft st (notificationMessage g h m.reason))) with
                      | none => exact Or.inr ⟨m, by simp⟩
                      | some db2 =>
                        obtain rfl := notificationsCreateEach_some hN
                        cases hsi : fp.socketInitialized <;>
                          cases het : fp.emitThrows <;>
                          exact Or.inr ⟨m, by simp⟩

theorem runDispatchAsync_alerts (db : DB) (fp : FailureProfile) (g : GuestDoc) (h : HotelDoc) :
    (runDispatchAsync db fp g h).db.alerts = db.alerts
    ∨ ∃ m, (runDispatchAsync db fp g h).db.alerts = db.alerts ++ [autoAlertOf db g m] := by
  unfold runDispatchAsync checkAsyncCore
  cases hwf : fp.watchlistFindFails with
  | true => simp
  | false =>
    simp only [Bool.false_eq_true, if_false]
    cases hM : watchlistFindOne db.watchlist g.idNumber g.phone with
    | none => simp
    | some m =>
      simp only []
      by_cases hPF : pincodeFalsy h.pinCode
      · simp [hPF]
      · simp only [hPF, Bool.false_eq_true, if_false]
        cases hai : fp.alertInsertFails with
        | true => simp
        | false =>
          simp only [Bool.false_eq_true, if_false]
          cases hA : alertCreate db (autoAlertOf db g m) with
          | none => simp
          | some db1 =>
            obtain rfl := alertCreate_some hA
            simp only []
            cases hsf : fp.stationFindFails with
            | true => exact Or.inr ⟨m, by simp⟩
            | false =>
              simp only [Bool.false_eq_true, if_false]
              cases hST : stationFindByPincode db.stations (h.pinCode.getD "") with
              | none => exact Or.inr ⟨m, by simp⟩
              | some st =>
                simp only []
                cases hof : fp.officersFindFails with
                | true => exact Or.inr ⟨m, by simp⟩
                | false =>
                  simp only [Bool.false_eq_true, if_false]
                  by_cases hOF : (officersAtStation db.police st.id).isEmpty
                  · exact Or.inr ⟨m, by simp [hOF]⟩
                  · simp only [hOF, Bool.false_eq_true, if_false]
                    cases haf : fp.adminsFindFails with
                    | true => exact Or.inr ⟨m, by simp⟩
                    | false =>
                      simp only [Bool.false_eq_true, if_false]
                      cases hnf : fp.notificationInsertFails with
                      | true => exact Or.inr ⟨m, by simp⟩
                      | false =>
                        simp only [Bool.false_eq_true, if_false]
                        cases hN : notificationInsertMany
                            { db with alerts := db.alerts ++ [autoAlertOf db g m] }
                            (((officersAtStation db.police st.id).map
                                (officerDraft st (notificationMessage g h m.reason)))
                              ++ (activeAdmins db.admins).map
                                  (adminDraft (notificationMessage g h m.reason))) with
                        | none => exact Or.inr ⟨m, by simp⟩
                        | some db2 =>
                          obtain rfl := notificationInsertMany_some hN
                          cases hsi : fp.socketInitialized <;>
                            cases het : fp.emitThrows <;>
                            exact Or.inr ⟨m, by simp⟩
theorem alertFindById_append {l : List Alert} {i : Nat} {a : Alert}
    (h : alertFindById l i = some a) (l2 : List Alert) :
    alertFindById (l ++ l2) i = some a := by
  unfold alertFindById at h ⊢
  induction l with
  | nil => simp at h
  | cons b t ih =>
    cases hb : (b.id == i) with
    | true =>
      simp only [List.find?, hb] at h
      simp only [List.cons_append, List.find?, hb]
      exact h
    | false =>
      simp only [List.find?, hb] at h
      simp only [List.cons_append, List.find?, hb]
      exact ih h

theorem replaceAlert_find_any {l : List Alert} {j : Nat} {a2 : Alert}
    (hid : ∀ b : Alert, (b.id == j) = true → a2.id = b.id) :
    ∀ {i : Nat} {a : Alert}, alertFindById l i = some a →
      ∃ a3, alertFindById (replaceAlert l j a2) i = some a3 ∧ (a3 = a ∨ a3 = a2) := by
  intro i a h
  unfold alertFindById at h ⊢
  unfold replaceAlert
  induction l with
  | nil => simp at h
  | cons b t ih =>
    have hfb : (if (b.id == j) = true then a2 else b).id = b.id := by
      by_cases hbj : (b.id == j) = true
      · simp [hbj, hid b hbj]
      · simp [hbj]
    cases hb : (b.id == i) with
    | true =>
      simp only [List.find?, hb] at h
      obtain rfl : b = a := Option.some.inj h
      refine ⟨if (b.id == j) = true then a2 else b, ?_, ?_⟩
      · simp only [List.map_cons, List.find?, hfb, hb]
      · by_cases hbj : (b.id == j) = true
        · simp [hbj]
        · simp [hbj]
    | false =>
      simp only [List.find?, hb] at h
      obtain ⟨a3, h3, hor⟩ := ih h
      refine ⟨a3, ?_, hor⟩
      simp only [List.map_cons, List.find?, hfb, hb]
      exact h3
theorem discipline_of_alerts_cases {db : DB} {l2 : List Alert}
    (hval : ∀ a ∈ db.alerts, a.status = "Open" ∨ a.status = "Resolved")
    (hc : l2 = db.alerts ∨ ∃ a0, l2 = db.alerts ++ [a0] ∧ a0.status = "Open") :
    (∀ a ∈ l2, a.status = "Open" ∨ a.status = "Resolved")
    ∧ (∀ a ∈ l2, a ∉ db.alerts →
        a.status = "Open" ∨ ∃ b ∈ db.alerts, a = { b with status := "Resolved" })
    ∧ (∀ i a, alertFindById db.alerts i = some a → a.status = "Resolved" →
        ∃ a2, alertFindById l2 i = some a2 ∧ a2.status = "Resolved") := by
  rcases hc with rfl | ⟨a0, rfl, h0⟩
  · exact ⟨hval, fun a ha hna => absurd ha hna, fun i a hf hr => ⟨a, hf, hr⟩⟩
  · refine ⟨?_, ?_, ?_⟩
    · intro a ha
      rcases List.mem_append.mp ha with ha | ha
      · exact hval a ha
      · rw [List.mem_singleton.mp ha]
        exact Or.inl h0
    · intro a ha hna
      rcases List.mem_append.mp ha with ha | ha
      · exact absurd ha hna
      · rw [List.mem_singleton.mp ha]
        exact Or.inl h0
    · intro i a hf hr
      exact ⟨a, alertFindById_append hf [a0], hr⟩

/-- C8: every operation touching the alerts collection (either
orchestrator, the manual `createAlert` controller, `resolveAlert`)
preserves the status discipline: statuses stay in
`{Open, Resolved}`; any alert present afterwards but not before is
either freshly created with status `Open` or an existing alert saved
with status `Resolved`; and an alert found `Resolved` before the
operation is still found `Resolved` afterwards — never moved back to
`Open`. -/
theorem alert_status_discipline (db : DB) (op : SysOp)
    (hval : ∀ a ∈ db.alerts, a.status = "Open" ∨ a.status = "Resolved") :
    (∀ a ∈ (applyOp db op).alerts, a.status = "Open" ∨ a.status = "Resolved")
    ∧ (∀ a ∈ (applyOp db op).alerts, a ∉ db.alerts →
        a.status = "Open" ∨ ∃ b ∈ db.alerts, a = { b with status := "Resolved" })
    ∧ (∀ i a, alertFindById db.alerts i = some a → a.status = "Resolved" →
        ∃ a2, alertFindById (applyOp db op).alerts i = some a2
          ∧ a2.status = "Resolved") := by
  cases op with
  | dispatchSync fp g h =>
    refine discipline_of_alerts_cases hval ?_
    rcases runDispatch_alerts db fp g h with h1 | ⟨m, h1⟩
    · exact Or.inl h1
    · exact Or.inr ⟨autoAlertOf db g m, h1, rfl⟩
  | dispatchAsync fp g h =>
    refine discipline_of_alerts_cases hval ?_
    rcases runDispatchAsync_alerts db fp g h with h1 | ⟨m, h1⟩
    · exact Or.inl h1
    · exact Or.inr ⟨autoAlertOf db g m, h1, rfl⟩
  | manualCreate gid r uid =>
    exact discipline_of_alerts_cases hval (Or.inl rfl)
  | resolve j =>
    cases hF : alertFindById db.alerts j with
    | none =>
      have hdb : (applyOp db (.resolve j)).alerts = db.alerts := by
        simp [applyOp, resolveAlert, hF]
      exact discipline_of_alerts_cases hval (Or.inl hdb)
    | some aF =>
      have hmemF : aF ∈ db.alerts := by
        have := List.mem_of_find?_eq_some hF
        exact this
      have hidF : aF.id = j := by
        have := List.find?_some hF
        simpa using this
      have hid : ∀ b : Alert, (b.id == j) = true →
          ({ aF with status := "Resolved" } : Alert).id = b.id := by
        intro b hb
        have h2 : b.id = j := by simpa using hb
        simp [hidF, h2]
      have halerts : (applyOp db (.resolve j)).alerts
          = replaceAlert db.alerts j { aF with status := "Resolved" } := by
        simp [applyOp, resolveAlert, hF]
      refine ⟨?_, ?_, ?_⟩
      · intro a ha
        rw [halerts] at ha
        unfold replaceAlert at ha
        obtain ⟨b, hbmem, hbeq⟩ := List.mem_map.mp ha
        by_cases hbj : (b.id == j) = true
        · rw [if_pos hbj] at hbeq
          rw [← hbeq]
          exact Or.inr rfl
        · rw [if_neg hbj] at hbeq
          rw [← hbeq]
          exact hval b hbmem
      · intro a ha hna
        rw [halerts] at ha
        unfold replaceAlert at ha
        obtain ⟨b, hbmem, hbeq⟩ := List.mem_map.mp ha
        by_cases hbj : (b.id == j) = true
        · rw [if_pos hbj] at hbeq
          exact Or.inr ⟨aF, hmemF, hbeq.symm⟩
        · rw [if_neg hbj] at hbeq
          exact absurd (hbeq ▸ hbmem) hna
      · intro i a hf hr
        obtain ⟨a3, h3, hor⟩ := replaceAlert_find_any hid hf
        rw [halerts]
        refine ⟨a3, h3, ?_⟩
        rcases hor with rfl | rfl
        · exact hr
        · rfl

/-- Witness for C8: resolving in a store holding one already-resolved
alert preserves the discipline. -/
theorem alert_status_discipline_witness :
    (∀ a ∈ (applyOp ⟨[], [], [], [], [⟨0, 100, "r", "Resolved", 31, "Police"⟩], []⟩
        (SysOp.resolve 0)).alerts, a.status = "Open" ∨ a.status = "Resolved")
    ∧ (∀ a ∈ (applyOp ⟨[], [], [], [], [⟨0, 100, "r", "Resolved", 31, "Police"⟩], []⟩
        (SysOp.resolve 0)).alerts,
        a ∉ (⟨[], [], [], [], [⟨0, 100, "r", "Resolved", 31, "Police"⟩], []⟩ : DB).alerts →
        a.status = "Open"
        ∨ ∃ b ∈ (⟨[], [], [], [], [⟨0, 100, "r", "Resolved", 31, "Police"⟩], []⟩ : DB).alerts,
            a = { b with status := "Resolved" })
    ∧ (∀ i a, alertFindById
          (⟨[], [], [], [], [⟨0, 100, "r", "Resolved", 31, "Police"⟩], []⟩ : DB).alerts i
            = some a →
        a.status = "Resolved" →
        ∃ a2, alertFindById (applyOp
            ⟨[], [], [], [], [⟨0, 100, "r", "Resolved", 31, "Police"⟩], []⟩
            (SysOp.resolve 0)).alerts i = some a2 ∧ a2.status = "Resolved") :=
  alert_status_discipline ⟨[], [], [], [], [⟨0, 100, "r", "Resolved", 31, "Police"⟩], []⟩
    (SysOp.resolve 0) (by decide)

end ApnaManager
